import Mathlib

/-!
# Shallow embedding of the `syslog` RFC 5424 parser

This file embeds the parsing code of the `syslog` crate (files
`src/timestamp.rs`, `src/rfc5424.rs`, `src/severity.rs`, `src/facility.rs`,
`src/structured_data.rs`) into Lean and proves properties of the embedding.

Conventions:
* A byte buffer `&[u8]` is a `List Nat` (each entry is the byte value).
* Rust `Result<T, Error>` for code that cannot panic is `Except Error T`.
* Code that may panic (out-of-bounds slice indexing) returns `PRes T`, whose
  `crash` constructor marks a Rust panic/abort.
* `u8`/`u32` arithmetic that cannot overflow in the source is plain `Nat`
  arithmetic; the one `i32` accumulator that can wrap (the priority value in
  `parse_message`) is modelled on `Int` with explicit two's-complement
  wrapping.
-/

/-- The error enum of the crate.  It merges the variants declared in
`src/error.rs` with the variants referenced by `src/rfc5424.rs`
(`InvalidTimestamp`, `ExpectSeparator`, `InvalidStructuredData`,
`BadSeverity`, `BadFacility`); the spec notes that the snapshots carry two
historical error-enum shapes.  `ExpectedChar` stores the byte value of the
expected/offending character. -/
inductive Error : Type where
  | BadSeverity : Error
  | BadFacility : Error
  | UnexpectedEndOfInput : Error
  | ExpectedChar : Nat → Error
  | ExpectSeparator : Error
  | InvalidTimestamp : Error
  | InvalidStructuredData : Error
  | TimestampTooShort : Error
  | InvalidCharDateTimeSep : Error
  | OutOfRangeTimezone : Error
  | OutOfRangeMonth : Error
  | OutOfRangeDay : Error
  | InvalidCharTzSign : Error
  | InvalidCharTzHour : Error
  | InvalidCharTzMinute : Error
  | OutOfRangeTzMinute : Error
  | ExtraCharacters : Error
  | OutOfRangeHour : Error
  | OutOfRangeMinute : Error
  | OutOfRangeSecond : Error
  | InvalidCharTimeSep : Error
  | SecondFractionTooLong : Error
  | SecondFractionMissing : Error
deriving DecidableEq, Repr

/-- Outcome of running a piece of Rust code that returns `Result<T, Error>`
but may also panic: `ok` is `Ok`, `err` is `Err`, and `crash` is a Rust
panic (in this crate, always an out-of-bounds slice index / failed
`expect`). -/
inductive PRes (α : Type) : Type where
  | ok : α → PRes α
  | err : Error → PRes α
  | crash : PRes α
deriving DecidableEq, Repr

/-- Byte at index `i`; used only where the source has already established
the access is in bounds (after an explicit length check), so the default
value is never observed. -/
def byteAt (buf : List Nat) (i : Nat) : Nat :=
  buf.getD i 0

/-- `b.is_ascii_digit()`. -/
def isDigit (b : Nat) : Bool :=
  48 ≤ b ∧ b ≤ 57

/-- Convert a `String` of ASCII characters to its byte buffer (test inputs
only). -/
def bytes (s : String) : List Nat :=
  s.data.map Char.toNat

namespace timestamp

/-- `convert_2_digits` from `src/timestamp.rs`: the two bytes are read as a
native-endian (little-endian) `u16` and the two low nibbles are combined as
`lower + upper * 10`. -/
def convert_2_digits (b0 b1 : Nat) : Nat :=
  let chunk := b0 + b1 * 256
  ((chunk &&& 0x0f00) >>> 8) + (chunk &&& 0x000f) * 10

/-- `convert_4_digits` from `src/timestamp.rs` (same body as the copy in
`src/rfc5424.rs`): the four bytes are read as a little-endian `u32` and the
nibbles are combined pairwise. -/
def convert_4_digits (b0 b1 b2 b3 : Nat) : Nat :=
  let chunk := b0 + b1 * 256 + b2 * 65536 + b3 * 16777216
  let lower := (chunk &&& 0x0f000f00) >>> 8
  let upper := (chunk &&& 0x000f000f) * 10
  let chunk2 := lower + upper
  let lower2 := (chunk2 &&& 0x00ff0000) >>> 16
  let upper2 := (chunk2 &&& 0x000000ff) * 100
  lower2 + upper2

/-- The February length computed by `parse_date`: 29 in a leap year
(divisible by 4 and, unless divisible by 400, not divisible by 100),
otherwise 28. -/
def febDays (year : Nat) : Nat :=
  if year % 4 = 0 ∧ (year % 100 ≠ 0 ∨ year % 400 = 0) then 29 else 28

/-- `parse_date` from `src/timestamp.rs`: reads `YYYY-MM-DD` from the first
ten bytes (every access is guarded by the length check, so this function
cannot panic), then bounds-checks the month and the day. -/
def parse_date (buf : List Nat) : Except Error (Nat × Nat × Nat) :=
  if buf.length < 10 then .error .TimestampTooShort
  else
    let year := convert_4_digits (byteAt buf 0) (byteAt buf 1) (byteAt buf 2) (byteAt buf 3)
    if byteAt buf 4 ≠ 45 then .error .InvalidCharDateTimeSep
    else
      let month := convert_2_digits (byteAt buf 5) (byteAt buf 6)
      if byteAt buf 7 ≠ 45 then .error .InvalidCharDateTimeSep
      else
        let day := convert_2_digits (byteAt buf 8) (byteAt buf 9)
        let maxDays : Except Error Nat :=
          if month = 1 ∨ month = 3 ∨ month = 5 ∨ month = 7 ∨ month = 8 ∨ month = 10 ∨ month = 12
          then .ok 31
          else if month = 4 ∨ month = 6 ∨ month = 9 ∨ month = 11 then .ok 30
          else if month = 2 then .ok (febDays year)
          else .error .OutOfRangeMonth
        match maxDays with
        | .error e => .error e
        | .ok md =>
          if day < 1 ∨ day > md then .error .OutOfRangeDay
          else .ok (year, month, day)

end timestamp

/-- The ten bytes `YYYY-MM-DD` encoding a date in ASCII decimal (the
canonical digit encoding of `y < 10000`, `m ≤ 99`, `d ≤ 99`). -/
def encDate (y m d : Nat) : List Nat :=
  [48 + y / 1000, 48 + y / 100 % 10, 48 + y / 10 % 10, 48 + y % 10, 45,
   48 + m / 10, 48 + m % 10, 45, 48 + d / 10, 48 + d % 10]

/-- Day count of month `m` of year `y` per the Gregorian calendar, as the
spec states it (31/30/28, with 29 for February in a leap year). -/
def monthDays (y m : Nat) : Nat :=
  if m = 2 then (if y % 4 = 0 ∧ (y % 100 ≠ 0 ∨ y % 400 = 0) then 29 else 28)
  else if m = 4 ∨ m = 6 ∨ m = 9 ∨ m = 11 then 30
  else 31


/-! ## Model of the chrono validity checks

The crate delegates final range validation of timestamps to the external
`chrono` crate.  The following three predicates are modelled from chrono's
documented behaviour: `FixedOffset::east_opt` accepts offsets strictly
between -86400 and 86400 seconds; `NaiveDate::from_ymd_opt` accepts real
proleptic-Gregorian calendar dates; `and_hms_nano_opt` accepts
`hour <= 23`, `minute <= 59`, `second <= 59` and
`nanosecond <= 1_999_999_999` (values above `10^9` denote leap seconds). -/

/-- chrono `FixedOffset::east_opt(off).is_some()`. -/
def eastValid (off : Int) : Bool :=
  -86400 < off ∧ off < 86400

/-- chrono `NaiveDate::from_ymd_opt(y, m, d).is_some()` (year range issues
cannot arise here: every year this crate produces lies in `0..=16665`). -/
def ymdValid (y m d : Nat) : Bool :=
  1 ≤ m ∧ m ≤ 12 ∧ 1 ≤ d ∧ d ≤ monthDays y m

/-- chrono `NaiveDateTime::and_hms_nano_opt(h, mi, s, n).is_some()`. -/
def hmsNanoValid (h mi s n : Nat) : Bool :=
  h ≤ 23 ∧ mi ≤ 59 ∧ s ≤ 59 ∧ n ≤ 1999999999

/-- The observable content of a chrono `DateTime<FixedOffset>` built by
`DateTime::from_local(naive, offset)`: the civil fields plus the fixed UTC
offset in seconds east. -/
structure DateTimeFO : Type where
  year : Nat
  month : Nat
  day : Nat
  hour : Nat
  minute : Nat
  second : Nat
  nanos : Nat
  tz : Int
deriving DecidableEq, Repr

namespace timestamp

/-- The `get_digit!` macro of `src/timestamp.rs`: `buf.get(i)` and require
an ASCII digit (the error variant is chosen at each use site). -/
def get_digit (buf : List Nat) (i : Nat) : Option Nat :=
  match buf.get? i with
  | some c => if isDigit c then some (c - 48) else none
  | none => none

/-- The fractional-second loop of `parse_time_without_timezone`
(`src/timestamp.rs` lines 194-213): reads digits at `start + i`,
accumulating only the first nine, and fails once `i` exceeds 9.  The
structural `fuel` keeps the invariant `fuel = 10 - i`; since the `i + 1 > 9`
check fires first, fuel exhaustion is unreachable (its value is chosen to
agree with that check anyway). -/
def fracLoop (buf : List Nat) (start i nano fuel : Nat) : Except Error (Nat × Nat) :=
  match fuel with
  | 0 => .error .SecondFractionTooLong
  | fuel + 1 =>
    match buf.get? (start + i) with
    | some c =>
      if isDigit c then
        let nano' := if i < 9 then nano * 10 + (c - 48) else nano
        if i + 1 > 9 then .error .SecondFractionTooLong
        else fracLoop buf start (i + 1) nano' fuel
      else .ok (nano, i)
    | none => .ok (nano, i)

/-- `parse_time_without_timezone` from `src/timestamp.rs`.  Returns
`(hour, minute, second, nanosecond, position)`.  The seconds slice
`buf[offset+6..offset+8]` is not length-guarded in the source, hence the
`crash` case. -/
def parse_time_without_timezone (buf : List Nat) (offset : Nat) :
    PRes (Nat × Nat × Nat × Nat × Nat) :=
  if buf.length - offset < 5 then .err .TimestampTooShort
  else
    let hour := convert_2_digits (byteAt buf offset) (byteAt buf (offset + 1))
    if hour > 23 then .err .OutOfRangeHour
    else if byteAt buf (offset + 2) ≠ 58 then .err .InvalidCharTimeSep
    else
      let minute := convert_2_digits (byteAt buf (offset + 3)) (byteAt buf (offset + 4))
      if minute > 59 then .err .OutOfRangeMinute
      else
        match buf.get? (offset + 5) with
        | some 58 =>
          if offset + 8 > buf.length then .crash
          else
            let second := convert_2_digits (byteAt buf (offset + 6)) (byteAt buf (offset + 7))
            if second > 59 then .err .OutOfRangeSecond
            else
              let frac_sep := buf.get? (offset + 8)
              if frac_sep = some 46 ∨ frac_sep = some 44 then
                match fracLoop buf (offset + 9) 0 0 10 with
                | .error e => .err e
                | .ok (nano, i) =>
                  if i = 0 then .err .SecondFractionMissing
                  else
                    let nano := if i < 9 then nano * 10 ^ (9 - i) else nano
                    .ok (hour, minute, second, nano, offset + 9 + i)
              else .ok (hour, minute, second, 0, offset + 8)
        | _ => .ok (hour, minute, 0, 0, offset + 5)

/-- Final step of the timezone branch of `parse_time`: read the second
minute digit at `position + 1`, bounds-check the minutes and the total
offset.  `position` is the index of the first minute digit. -/
def tzFinish (buf : List Nat) (position : Nat) (sign : Int) (h1 h2 m1 : Nat) :
    PRes (Option Int × Nat) :=
  match get_digit buf (position + 1) with
  | none => .err .InvalidCharTzMinute
  | some m2 =>
    let minute_seconds : Int := m1 * 600 + m2 * 60
    if minute_seconds ≥ 3600 then .err .OutOfRangeTzMinute
    else
      let offset_val : Int := sign * (h1 * 36000 + h2 * 3600 + minute_seconds)
      if offset_val.natAbs ≥ 24 * 3600 then .err .OutOfRangeTimezone
      else .ok (some offset_val, position + 2)

/-- The timezone-offset portion of `parse_time` (`src/timestamp.rs` lines
91-144).  Returns the parsed offset (or `none` at end of input) and the
final position. -/
def tzParse (buf : List Nat) (position : Nat) : PRes (Option Int × Nat) :=
  match buf.get? position with
  | none => .ok (none, position)
  | some next_char =>
    let position := position + 1
    if next_char = 90 ∨ next_char = 122 then .ok (some 0, position)
    else
      match (if next_char = 43 then some ((1 : Int), position)
             else if next_char = 45 then some ((-1 : Int), position)
             else if next_char = 226 then
               (if buf.get? position = some 136 ∧ buf.get? (position + 1) = some 146
                then some ((-1 : Int), position + 2) else none)
             else none) with
      | none => .err .InvalidCharTzSign
      | some (sign, position) =>
        match get_digit buf position with
        | none => .err .InvalidCharTzHour
        | some h1 =>
          match get_digit buf (position + 1) with
          | none => .err .InvalidCharTzHour
          | some h2 =>
            match buf.get? (position + 2) with
            | some 58 =>
              match get_digit buf (position + 3) with
              | none => .err .InvalidCharTzMinute
              | some m1 => tzFinish buf (position + 3) sign h1 h2 m1
            | some c =>
              if isDigit c then tzFinish buf (position + 2) sign h1 h2 (c - 48)
              else .err .InvalidCharTzMinute
            | none => .err .InvalidCharTzMinute

/-- `parse_time` from `src/timestamp.rs`: time of day, then optional
timezone offset, then the strict trailing-characters check. -/
def parse_time (buf : List Nat) (offset : Nat) :
    PRes (Nat × Nat × Nat × Nat × Option Int) :=
  match parse_time_without_timezone buf offset with
  | .err e => .err e
  | .crash => .crash
  | .ok (hour, minute, second, micro, position) =>
    match tzParse buf position with
    | .err e => .err e
    | .crash => .crash
    | .ok (tz_offset, pos2) =>
      if buf.length > pos2 then .err .ExtraCharacters
      else .ok (hour, minute, second, micro, tz_offset)

/-- `parse_timestamp_rfc3339` from `src/timestamp.rs`: full date, one of
the separators `T`/`t`/space/`_`, then `parse_time` from index 11.  The
two `.expect(..)` calls are modelled as `crash`. -/
def parse_timestamp_rfc3339 (buf : List Nat) : PRes DateTimeFO :=
  match parse_date buf with
  | .error e => .err e
  | .ok (year, month, day) =>
    let sep := buf.get? 10
    if sep ≠ some 84 ∧ sep ≠ some 116 ∧ sep ≠ some 32 ∧ sep ≠ some 95 then
      .err .InvalidCharDateTimeSep
    else
      match parse_time buf 11 with
      | .err e => .err e
      | .crash => .crash
      | .ok (hour, minute, second, nanosecond, tz) =>
        let off := tz.getD 0
        if ¬ eastValid off then .err .OutOfRangeTimezone
        else if ¬ ymdValid year month day then .crash
        else if ¬ hmsNanoValid hour minute second nanosecond then .crash
        else .ok ⟨year, month, day, hour, minute, second, nanosecond, off⟩

end timestamp

/-! ## Embedding of `src/severity.rs`, `src/facility.rs`,
`src/structured_data.rs`, `src/message.rs`, `src/procid.rs` -/

/-- `Severity` from `src/severity.rs`. -/
inductive Severity : Type where
  | EMERG | ALERT | CRIT | ERR | WARNING | NOTICE | INFO | DEBUG
deriving DecidableEq, Repr

/-- The numeric value of each severity (the enum discriminant). -/
def Severity.code : Severity → Nat
  | .EMERG => 0 | .ALERT => 1 | .CRIT => 2 | .ERR => 3
  | .WARNING => 4 | .NOTICE => 5 | .INFO => 6 | .DEBUG => 7

/-- `TryFrom<i32> for Severity` from `src/severity.rs`. -/
def Severity.try_from (value : Int) : Except Error Severity :=
  if value = 0 then .ok .EMERG
  else if value = 1 then .ok .ALERT
  else if value = 2 then .ok .CRIT
  else if value = 3 then .ok .ERR
  else if value = 4 then .ok .WARNING
  else if value = 5 then .ok .NOTICE
  else if value = 6 then .ok .INFO
  else if value = 7 then .ok .DEBUG
  else .error .BadSeverity

/-- `Facility` from `src/facility.rs`. -/
inductive Facility : Type where
  | KERN | USER | MAIL | DAEMON | AUTH | SYSLOG | LPR | NEWS
  | UUCP | CRON | AUTHPRIV | FTP | NTP | AUDIT | ALERT | CLOCKD
  | LOCAL0 | LOCAL1 | LOCAL2 | LOCAL3 | LOCAL4 | LOCAL5 | LOCAL6 | LOCAL7
deriving DecidableEq, Repr

/-- The numeric value of each facility (the enum discriminant). -/
def Facility.code : Facility → Nat
  | .KERN => 0 | .USER => 1 | .MAIL => 2 | .DAEMON => 3
  | .AUTH => 4 | .SYSLOG => 5 | .LPR => 6 | .NEWS => 7
  | .UUCP => 8 | .CRON => 9 | .AUTHPRIV => 10 | .FTP => 11
  | .NTP => 12 | .AUDIT => 13 | .ALERT => 14 | .CLOCKD => 15
  | .LOCAL0 => 16 | .LOCAL1 => 17 | .LOCAL2 => 18 | .LOCAL3 => 19
  | .LOCAL4 => 20 | .LOCAL5 => 21 | .LOCAL6 => 22 | .LOCAL7 => 23

/-- `Facility::from_int` from `src/facility.rs`; `Facility::try_from` as
used by `src/rfc5424.rs` reports `BadFacility` on a value outside the
table. -/
def Facility.try_from (i : Int) : Except Error Facility :=
  if i = 0 then .ok .KERN
  else if i = 1 then .ok .USER
  else if i = 2 then .ok .MAIL
  else if i = 3 then .ok .DAEMON
  else if i = 4 then .ok .AUTH
  else if i = 5 then .ok .SYSLOG
  else if i = 6 then .ok .LPR
  else if i = 7 then .ok .NEWS
  else if i = 8 then .ok .UUCP
  else if i = 9 then .ok .CRON
  else if i = 10 then .ok .AUTHPRIV
  else if i = 11 then .ok .FTP
  else if i = 12 then .ok .NTP
  else if i = 13 then .ok .AUDIT
  else if i = 14 then .ok .ALERT
  else if i = 15 then .ok .CLOCKD
  else if i = 16 then .ok .LOCAL0
  else if i = 17 then .ok .LOCAL1
  else if i = 18 then .ok .LOCAL2
  else if i = 19 then .ok .LOCAL3
  else if i = 20 then .ok .LOCAL4
  else if i = 21 then .ok .LOCAL5
  else if i = 22 then .ok .LOCAL6
  else if i = 23 then .ok .LOCAL7
  else .error .BadFacility

/-- `StructuredElement<&str>` from `src/structured_data.rs`; the borrowed
strings are byte lists. -/
structure StructuredElement : Type where
  id : List Nat
  params : List (List Nat × List Nat)
deriving DecidableEq, Repr

/-- Byte-lexicographic strict order on strings: Rust `Ord for str`. -/
def strLt : List Nat → List Nat → Bool
  | [], [] => false
  | [], _ :: _ => true
  | _ :: _, [] => false
  | x :: xs, y :: ys => if x < y then true else if y < x then false else strLt xs ys

/-- Rust `Ord` for the tuple `(&str, &str)` (lexicographic), as `<=`. -/
def pairLe (p q : List Nat × List Nat) : Bool :=
  if strLt p.1 q.1 then true
  else if strLt q.1 p.1 then false
  else ¬ strLt q.2 p.2

/-- Insertion sort: a model of the stable `Vec::sort` used by
`StructuredElement::eq` (only the sorted order is observable there). -/
def insertSorted (p : List Nat × List Nat) :
    List (List Nat × List Nat) → List (List Nat × List Nat)
  | [] => [p]
  | q :: qs => if pairLe p q then p :: q :: qs else q :: insertSorted p qs

/-- See `insertSorted`. -/
def sortParams : List (List Nat × List Nat) → List (List Nat × List Nat)
  | [] => []
  | p :: ps => insertSorted p (sortParams ps)

/-- `PartialEq for StructuredElement` from `src/structured_data.rs`:
compare the ids, sort both parameter vectors, then `zip` them and compare
pointwise (note `zip` stops at the shorter of the two lists). -/
def sd_eq (a b : StructuredElement) : Bool :=
  if a.id ≠ b.id then false
  else
    let params1 := sortParams a.params
    let params2 := sortParams b.params
    (params1.zip params2).all
      (fun pq => pq.1.1 = pq.2.1 ∧ pq.1.2 = pq.2.2)

/-- `ProcId` from `src/procid.rs`. -/
inductive ProcId : Type where
  | PID : Int → ProcId
  | Name : List Nat → ProcId
deriving DecidableEq, Repr

/-- `Protocol` from `src/message.rs`. -/
inductive Protocol : Type where
  | RFC3164 : Protocol
  | RFC5424 : Nat → Protocol
deriving DecidableEq, Repr

/-- `Message<&str>` from `src/message.rs`. -/
structure Message : Type where
  severity : Severity
  facility : Facility
  protocol : Protocol
  timestamp : Option DateTimeFO
  hostname : Option (List Nat)
  appname : Option (List Nat)
  procid : Option ProcId
  msgid : Option (List Nat)
  structured_data : List StructuredElement
  msg : List Nat
deriving DecidableEq, Repr

/-- Modelled from Rust `i32::from_str` (used for the PROCID field): an
optional `+`/`-` sign, one or more ASCII digits, nothing else, and the
value must fit in `i32`. -/
def parseI32 (s : List Nat) : Option Int :=
  let sd : Int × List Nat :=
    match s with
    | 43 :: rest => (1, rest)
    | 45 :: rest => (-1, rest)
    | _ => (1, s)
  if sd.2 = [] then none
  else if ¬ sd.2.all (fun c => isDigit c) then none
  else
    let v : Int := sd.1 * ((sd.2.foldl (fun a c => a * 10 + (c - 48)) 0 : Nat) : Int)
    if v < -(2 ^ 31) ∨ v ≥ 2 ^ 31 then none else some v


/-- `map` for `PRes` (success-path post-processing). -/
def PRes.map {A B : Type} (f : A → B) : PRes A → PRes B
  | .ok a => .ok (f a)
  | .err e => .err e
  | .crash => .crash

namespace rfc5424

/-- `i32` two's-complement wrap-around (release-mode Rust semantics for
the `prival` accumulator).  Because wrapping multiplication/addition is
arithmetic modulo `2^32`, wrapping once per `prival * 10 + digit` step is
exactly the source's pair of wrapping operations. -/
def wrap32 (x : Int) : Int :=
  (x + 2 ^ 31) % 2 ^ 32 - 2 ^ 31

/-- `prival & 0x7` on a two's-complement `i32`: the low three bits, which
equal the Euclidean remainder modulo 8. -/
def i32_and7 (x : Int) : Int :=
  x % 8

/-- `prival >> 3` on a two's-complement `i32` (arithmetic shift): floor
division by 8, which for the positive divisor 8 equals the Euclidean
quotient. -/
def i32_shr3 (x : Int) : Int :=
  x / 8

/-- The priority loop of `parse_message` (`src/rfc5424.rs` lines 323-337):
`for pos in 1..len`, accumulating digits into the wrapping `i32`
`prival`; `>` breaks with the cursor after it; any other non-digit fails.
If the loop exhausts the buffer without a break, the cursor keeps its
initial value 1, exactly as in the source.  The structural `fuel` is the
number of remaining iterations `buf.length - pos`, so `fuel = 0` is
exactly the loop running off the end of the buffer. -/
def pri_loop (buf : List Nat) (pos : Nat) (prival : Int) (fuel : Nat) :
    Except Error (Nat × Int) :=
  match fuel with
  | 0 => .ok (1, prival)
  | fuel + 1 =>
    let ch := byteAt buf pos
    if ¬ isDigit ch then
      (if ch = 62 then .ok (pos + 1, prival) else .error (.ExpectedChar ch))
    else pri_loop buf (pos + 1) (wrap32 (prival * 10 + ((ch - 48 : Nat) : Int))) fuel

/-- The sub-slice `&buf[a..b]` (every use in this file has `a ≤ b ≤ len`). -/
def slice (buf : List Nat) (a b : Nat) : List Nat :=
  (buf.drop a).take (b - a)

/-- Scan loop of `take_until_whitespace` (`src/rfc5424.rs` lines 164-174):
find the next space at or after `pos`; hitting the end of the buffer is
`UnexpectedEndOfInput`.  Here and in the loops below, the structural
`fuel` is the number of remaining in-bounds positions `buf.length - pos`,
so `fuel = 0` is exactly the scan running off the end of the buffer. -/
def twu_loop (buf : List Nat) (start pos fuel : Nat) : Except Error (List Nat × Nat) :=
  match fuel with
  | 0 => .error .UnexpectedEndOfInput
  | fuel + 1 =>
    if byteAt buf pos = 32 then .ok (slice buf start pos, pos)
    else twu_loop buf start (pos + 1) fuel

/-- `take_until_whitespace` from `src/rfc5424.rs`. -/
def take_until_whitespace (buf : List Nat) (offset : Nat) : Except Error (List Nat × Nat) :=
  twu_loop buf offset offset (buf.length - offset)

/-- Scan loop of `parse_param_key` (`src/rfc5424.rs` lines 211-223): find
the next `=` or `]` at or after `pos`. -/
def key_loop (buf : List Nat) (start pos fuel : Nat) : Except Error (List Nat × Nat) :=
  match fuel with
  | 0 => .error .UnexpectedEndOfInput
  | fuel + 1 =>
    let ch := byteAt buf pos
    if ch = 61 ∨ ch = 93 then .ok (slice buf start pos, pos)
    else key_loop buf start (pos + 1) fuel

/-- `parse_param_key` from `src/rfc5424.rs`. -/
def parse_param_key (buf : List Nat) (offset : Nat) : Except Error (List Nat × Nat) :=
  key_loop buf offset offset (buf.length - offset)

/-- Scan loop of `parse_param_value` (`src/rfc5424.rs` lines 232-240):
find the next `"` — the first one, with no backslash handling.  Returns
the value and the cursor one past the closing quote. -/
def value_loop (buf : List Nat) (start pos fuel : Nat) : PRes (List Nat × Nat) :=
  match fuel with
  | 0 => .err .UnexpectedEndOfInput
  | fuel + 1 =>
    if byteAt buf pos = 34 then .ok (slice buf start pos, pos + 1)
    else value_loop buf start (pos + 1) fuel

/-- `parse_param_value` from `src/rfc5424.rs`: the opening-quote check
indexes `buf[*offset]` unchecked, hence the `crash` case. -/
def parse_param_value (buf : List Nat) (offset : Nat) : PRes (List Nat × Nat) :=
  match buf.get? offset with
  | none => .crash
  | some c =>
    if c ≠ 34 then .err (.ExpectedChar 34)
    else value_loop buf (offset + 1) (offset + 1) (buf.length - (offset + 1))

/-- The `loop` of `parse_sd_params` (`src/rfc5424.rs` lines 182-205).
`fuel` only bounds the recursion; the cursor strictly advances on every
iteration, so with `fuel > buf.length` the `crash` on exhaustion is
unreachable.  After a value, `buf[*offset]` is indexed unchecked (crash at
end of input); `]` ends the element, a space continues with the next
parameter, anything else is `InvalidStructuredData`. -/
def sd_params_loop (buf : List Nat) (offset : Nat)
    (params : List (List Nat × List Nat)) (fuel : Nat) :
    PRes (List (List Nat × List Nat) × Nat) :=
  match fuel with
  | 0 => .crash
  | fuel + 1 =>
    match parse_param_key buf offset with
    | .error e => .err e
    | .ok (key, o1) =>
      if byteAt buf o1 ≠ 61 then .err (.ExpectedChar 61)
      else
        match parse_param_value buf (o1 + 1) with
        | .crash => .crash
        | .err e => .err e
        | .ok (value, o2) =>
          let params := params ++ [(key, value)]
          match buf.get? o2 with
          | none => .crash
          | some 93 => .ok (params, o2 + 1)
          | some 32 => sd_params_loop buf (o2 + 1) params fuel
          | some _ => .err .InvalidStructuredData

/-- `parse_sd_params` from `src/rfc5424.rs`. -/
def parse_sd_params (buf : List Nat) (offset : Nat) :
    PRes (List (List Nat × List Nat) × Nat) :=
  sd_params_loop buf offset [] (buf.length + 1)

/-- Result of the id scan inside `parse_structured_element`
(`src/rfc5424.rs` lines 264-279): `]` returns the element immediately,
a space proceeds to the parameters, and if the loop exhausts the buffer
the id stays empty and the cursor stays put (the source then falls through
to `parse_sd_params`). -/
inductive SdId : Type where
  | done : List Nat → Nat → SdId
  | withParams : List Nat → Nat → SdId
  | fallthrough : SdId
deriving DecidableEq, Repr

/-- See `SdId`. -/
def sd_id_loop (buf : List Nat) (start pos fuel : Nat) : SdId :=
  match fuel with
  | 0 => .fallthrough
  | fuel + 1 =>
    let ch := byteAt buf pos
    if ch = 32 then .withParams (slice buf start pos) (pos + 1)
    else if ch = 93 then .done (slice buf start pos) (pos + 1)
    else sd_id_loop buf start (pos + 1) fuel

/-- `parse_structured_element` from `src/rfc5424.rs`: `[`, then either an
immediate `]` (empty element), or an id scan followed (after a space) by
the parameter loop.  Both leading indexings are unchecked in the source. -/
def parse_structured_element (buf : List Nat) (offset : Nat) :
    PRes (StructuredElement × Nat) :=
  match buf.get? offset with
  | none => .crash
  | some c =>
    if c ≠ 91 then .err (.ExpectedChar 91)
    else
      match buf.get? (offset + 1) with
      | none => .crash
      | some c2 =>
        if c2 = 93 then .ok (⟨[], []⟩, offset + 2)
        else
          match sd_id_loop buf (offset + 1) (offset + 1) (buf.length - (offset + 1)) with
          | .done id o => .ok (⟨id, []⟩, o)
          | .withParams id o =>
            (match parse_sd_params buf o with
             | .err e => .err e
             | .crash => .crash
             | .ok (params, o2) => .ok (⟨id, params⟩, o2))
          | .fallthrough =>
            (match parse_sd_params buf (offset + 1) with
             | .err e => .err e
             | .crash => .crash
             | .ok (params, o2) => .ok (⟨[], params⟩, o2))

/-- The `loop` of `parse_structured_data` (`src/rfc5424.rs` lines
294-303): parse elements back to back until end of input or a space
(`||` short-circuits, so the space check only runs in bounds).  As with
`sd_params_loop`, the fuel is never exhausted. -/
def sd_loop (buf : List Nat) (offset : Nat) (elements : List StructuredElement)
    (fuel : Nat) : PRes (List StructuredElement × Nat) :=
  match fuel with
  | 0 => .crash
  | fuel + 1 =>
    match parse_structured_element buf offset with
    | .err e => .err e
    | .crash => .crash
    | .ok (element, o) =>
      let elements := elements ++ [element]
      if o = buf.length then .ok (elements, o)
      else if byteAt buf o = 32 then .ok (elements, o)
      else sd_loop buf o elements fuel

/-- `parse_structured_data` from `src/rfc5424.rs`. -/
def parse_structured_data (buf : List Nat) (offset : Nat) :
    PRes (List StructuredElement × Nat) :=
  sd_loop buf offset [] (buf.length + 1)

/-- `to_datetime` from `src/rfc5424.rs`: chrono validation with
`OutOfRangeTimezone` for a bad offset and `InvalidTimestamp` for a bad
date or time (see the chrono model above). -/
def to_datetime (year month day hour minute second nanos : Nat) (off : Int) :
    Except Error DateTimeFO :=
  if ¬ eastValid off then .error .OutOfRangeTimezone
  else if ¬ ymdValid year month day then .error .InvalidTimestamp
  else if ¬ hmsNanoValid hour minute second nanos then .error .InvalidTimestamp
  else .ok ⟨year, month, day, hour, minute, second, nanos, off⟩

/-- The fractional-digit loop of `parse_timestamp` (`src/rfc5424.rs` lines
108-115): scan the slice `buf[idx..end]` where `end = min(idx + 9, len)`,
accumulating digits; the structural `fuel` is the slice length
`end - idx`. -/
def nanosLoop (buf : List Nat) (idx nanos count fuel : Nat) : Nat × Nat :=
  match fuel with
  | 0 => (nanos, count)
  | fuel + 1 =>
    let ch := byteAt buf idx
    if isDigit ch then nanosLoop buf (idx + 1) (nanos * 10 + (ch - 48)) (count + 1) fuel
    else (nanos, count)

/-- The timezone tail of `parse_timestamp` (`src/rfc5424.rs` lines
126-159): `z`/`Z` consumes one byte and finishes with offset 0; `+`/`-`
parse `HH:MM`; anything else is `InvalidTimestamp`.  The leading
`buf[*offset]` indexing is unchecked in the source. -/
def ts_tz (buf : List Nat) (o : Nat) (year month day hour minute second nanos : Nat) :
    PRes (DateTimeFO × Nat) :=
  match buf.get? o with
  | none => .crash
  | some c =>
    if c = 122 ∨ c = 90 then
      (match to_datetime year month day hour minute second nanos 0 with
       | .error e => .err e
       | .ok dt => .ok (dt, o + 1))
    else
      match (if c = 43 then some ((1 : Int)) else if c = 45 then some ((-1 : Int)) else none) with
      | none => .err .InvalidTimestamp
      | some sign =>
        let o1 := o + 1
        if buf.length - o1 < 5 then .err .InvalidTimestamp
        else
          let h := timestamp.convert_2_digits (byteAt buf o1) (byteAt buf (o1 + 1))
          if byteAt buf (o1 + 2) ≠ 58 then .err .InvalidTimestamp
          else
            let m := timestamp.convert_2_digits (byteAt buf (o1 + 3)) (byteAt buf (o1 + 4))
            match to_datetime year month day hour minute second nanos
                (sign * ((h : Int) * 60 * 60 + (m : Int) * 60)) with
            | .error e => .err e
            | .ok dt => .ok (dt, o1 + 5)

/-- `parse_timestamp` from `src/rfc5424.rs` (the message parser's embedded
RFC 3339 parser): fixed-width `YYYY-MM-DDTHH:MM:SS` (the separator must be
a literal `T`), optional `.`/`,` fraction, then the timezone tail.  Note
the source quirk: when `z`/`Z` directly follows the seconds (no
fraction), the function returns without consuming it. -/
def parse_timestamp (buf : List Nat) (offset : Nat) : PRes (DateTimeFO × Nat) :=
  let len := buf.length
  if len - offset < 20 then .err .InvalidTimestamp
  else
    let year := timestamp.convert_4_digits (byteAt buf offset) (byteAt buf (offset + 1))
      (byteAt buf (offset + 2)) (byteAt buf (offset + 3))
    if byteAt buf (offset + 4) ≠ 45 then .err .InvalidTimestamp
    else
      let o1 := offset + 5
      let month := timestamp.convert_2_digits (byteAt buf o1) (byteAt buf (o1 + 1))
      if byteAt buf (o1 + 2) ≠ 45 then .err .InvalidTimestamp
      else
        let o2 := o1 + 3
        let day := timestamp.convert_2_digits (byteAt buf o2) (byteAt buf (o2 + 1))
        if byteAt buf (o2 + 2) ≠ 84 then .err .InvalidTimestamp
        else
          let o3 := o2 + 3
          let hour := timestamp.convert_2_digits (byteAt buf o3) (byteAt buf (o3 + 1))
          if byteAt buf (o3 + 2) ≠ 58 then .err .InvalidTimestamp
          else
            let o4 := o3 + 3
            let minute := timestamp.convert_2_digits (byteAt buf o4) (byteAt buf (o4 + 1))
            if byteAt buf (o4 + 2) ≠ 58 then .err .InvalidTimestamp
            else
              let o5 := o4 + 3
              let second := timestamp.convert_2_digits (byteAt buf o5) (byteAt buf (o5 + 1))
              let o6 := o5 + 2
              let next_char := byteAt buf o6
              if next_char = 46 ∨ next_char = 44 then
                let o7 := o6 + 1
                let end_ := min (o7 + 9) len
                let nc := nanosLoop buf o7 0 0 (end_ - o7)
                let o8 := o7 + nc.2
                let nanos := nc.1 * 10 ^ (9 - nc.2)
                ts_tz buf o8 year month day hour minute second nanos
              else if next_char = 122 ∨ next_char = 90 then
                (match to_datetime year month day hour minute second 0 0 with
                 | .error e => .err e
                 | .ok dt => .ok (dt, o6))
              else
                ts_tz buf o6 year month day hour minute second 0

/-- The repeated field pattern of `parse_message`: a `-` means absent,
anything else is scanned to the next space.  The leading `buf[offset]`
indexing is unchecked in the source. -/
def dash_or_token (buf : List Nat) (offset : Nat) : PRes (Option (List Nat) × Nat) :=
  match buf.get? offset with
  | none => .crash
  | some c =>
    if c = 45 then .ok (none, offset + 1)
    else
      match take_until_whitespace buf offset with
      | .error e => .err e
      | .ok (s, o) => .ok (some s, o)

/-- The repeated `if buf[offset] != b' ' { return Err(ExpectSeparator) }`
pattern of `parse_message` (unchecked indexing). -/
def expect_space (buf : List Nat) (offset : Nat) : PRes Nat :=
  match buf.get? offset with
  | none => .crash
  | some c => if c ≠ 32 then .err .ExpectSeparator else .ok (offset + 1)

/-- The non-priority fields of a message, in source order. -/
structure Fields : Type where
  version : Nat
  timestamp : Option DateTimeFO
  hostname : Option (List Nat)
  appname : Option (List Nat)
  procid : Option ProcId
  msgid : Option (List Nat)
  structured_data : List StructuredElement
  msg : List Nat
deriving DecidableEq, Repr

/-- `parse_message` from `src/rfc5424.rs`, lines 342-437: everything after
the priority/severity/facility step, in strict field order (version,
timestamp, hostname, appname, procid, msgid, structured data, free text).
Every `buf[offset]` indexing without a preceding bounds check can crash,
as in the source. -/
def parse_fields (buf : List Nat) (offset : Nat) : PRes Fields :=
  match buf.get? offset with
  | none => .crash
  | some ch =>
    if ¬ isDigit ch then .err (.ExpectedChar ch)
    else
      let version := ch - 48
      match expect_space buf (offset + 1) with
      | .err e => .err e
      | .crash => .crash
      | .ok o2 =>
        match buf.get? o2 with
        | none => .crash
        | some c2 =>
          match (if c2 = 45 then .ok (none, o2 + 1)
                 else PRes.map (fun p => (some p.1, p.2)) (parse_timestamp buf o2) :
                 PRes (Option DateTimeFO × Nat)) with
          | .err e => .err e
          | .crash => .crash
          | .ok (ts, o3) =>
            match expect_space buf o3 with
            | .err e => .err e
            | .crash => .crash
            | .ok o4 =>
              match dash_or_token buf o4 with
              | .err e => .err e
              | .crash => .crash
              | .ok (hostname, o5) =>
                match expect_space buf o5 with
                | .err e => .err e
                | .crash => .crash
                | .ok o6 =>
                  match dash_or_token buf o6 with
                  | .err e => .err e
                  | .crash => .crash
                  | .ok (appname, o7) =>
                    match expect_space buf o7 with
                    | .err e => .err e
                    | .crash => .crash
                    | .ok o8 =>
                      match dash_or_token buf o8 with
                      | .err e => .err e
                      | .crash => .crash
                      | .ok (procid_raw, o9) =>
                        let procid : Option ProcId := procid_raw.map (fun s =>
                          match parseI32 s with
                          | some n => .PID n
                          | none => .Name s)
                        match expect_space buf o9 with
                        | .err e => .err e
                        | .crash => .crash
                        | .ok o10 =>
                          match dash_or_token buf o10 with
                          | .err e => .err e
                          | .crash => .crash
                          | .ok (msgid, o11) =>
                            match expect_space buf o11 with
                            | .err e => .err e
                            | .crash => .crash
                            | .ok o12 =>
                              match buf.get? o12 with
                              | none => .crash
                              | some c12 =>
                                match (if c12 = 45 then .ok ([], o12 + 1)
                                       else parse_structured_data buf o12 :
                                       PRes (List StructuredElement × Nat)) with
                                | .err e => .err e
                                | .crash => .crash
                                | .ok (sd, o13) =>
                                  let o14 :=
                                    if o13 < buf.length ∧ byteAt buf o13 = 32
                                    then o13 + 1 else o13
                                  .ok ⟨version, ts, hostname, appname, procid, msgid,
                                    sd, buf.drop o14⟩

/-- `parse_message` from `src/rfc5424.rs`: the `<` guard, the priority
digit loop, the severity/facility split of the accumulated `i32`, then
the remaining fields (`parse_fields`). -/
def parse_message (buf : List Nat) : PRes Message :=
  if buf.length < 4 ∨ byteAt buf 0 ≠ 60 then .err (.ExpectedChar 60)
  else
    match pri_loop buf 1 0 (buf.length - 1) with
    | .error e => .err e
    | .ok (offset, prival) =>
      match Severity.try_from (i32_and7 prival) with
      | .error e => .err e
      | .ok severity =>
        match Facility.try_from (i32_shr3 prival) with
        | .error e => .err e
        | .ok facility =>
          PRes.map
            (fun f => Message.mk severity facility (.RFC5424 f.version) f.timestamp
              f.hostname f.appname f.procid f.msgid f.structured_data f.msg)
            (parse_fields buf offset)

end rfc5424


/-- The eight bytes `HH:MM:SS` encoding a time of day in ASCII decimal. -/
def encTime (h mi s : Nat) : List Nat :=
  [48 + h / 10, 48 + h % 10, 58, 48 + mi / 10, 48 + mi % 10, 58, 48 + s / 10, 48 + s % 10]

/-- Decimal value of a run of ASCII digit bytes. -/
def digitsVal (ds : List Nat) : Nat :=
  ds.foldl (fun a c => a * 10 + (c - 48)) 0

theorem conv2_digits_val :
    ∀ a < 10, ∀ b < 10, timestamp.convert_2_digits (48 + a) (48 + b) = a * 10 + b := by
  decide

theorem conv4_digits_val :
    ∀ a < 10, ∀ b < 10, ∀ c < 10, ∀ d < 10,
      timestamp.convert_4_digits (48 + a) (48 + b) (48 + c) (48 + d) =
        a * 1000 + b * 100 + c * 10 + d := by
  decide

theorem conv2_enc (n : Nat) (h : n ≤ 99) :
    timestamp.convert_2_digits (48 + n / 10) (48 + n % 10) = n := by
  have := conv2_digits_val (n / 10) (by omega) (n % 10) (by omega)
  omega

theorem conv4_enc (n : Nat) (h : n < 10000) :
    timestamp.convert_4_digits (48 + n / 1000) (48 + n / 100 % 10)
      (48 + n / 10 % 10) (48 + n % 10) = n := by
  have := conv4_digits_val (n / 1000) (by omega) (n / 100 % 10) (by omega)
    (n / 10 % 10) (by omega) (n % 10) (by omega)
  omega

/-- `parse_date` on a canonically encoded `YYYY-MM-DD` reduces to the pure
calendar check of the source. -/
theorem parse_date_enc (y m d : Nat) (hy : y < 10000) (hm : m ≤ 99) (hd : d ≤ 99) :
    timestamp.parse_date (encDate y m d) =
      if m = 1 ∨ m = 3 ∨ m = 5 ∨ m = 7 ∨ m = 8 ∨ m = 10 ∨ m = 12 then
        (if d < 1 ∨ d > 31 then .error .OutOfRangeDay else .ok (y, m, d))
      else if m = 4 ∨ m = 6 ∨ m = 9 ∨ m = 11 then
        (if d < 1 ∨ d > 30 then .error .OutOfRangeDay else .ok (y, m, d))
      else if m = 2 then
        (if d < 1 ∨ d > timestamp.febDays y then .error .OutOfRangeDay else .ok (y, m, d))
      else .error .OutOfRangeMonth := by
  have hlen : (encDate y m d).length = 10 := rfl
  have h0 : byteAt (encDate y m d) 0 = 48 + y / 1000 := rfl
  have h1 : byteAt (encDate y m d) 1 = 48 + y / 100 % 10 := rfl
  have h2 : byteAt (encDate y m d) 2 = 48 + y / 10 % 10 := rfl
  have h3 : byteAt (encDate y m d) 3 = 48 + y % 10 := rfl
  have h4 : byteAt (encDate y m d) 4 = 45 := rfl
  have h5 : byteAt (encDate y m d) 5 = 48 + m / 10 := rfl
  have h6 : byteAt (encDate y m d) 6 = 48 + m % 10 := rfl
  have h7 : byteAt (encDate y m d) 7 = 45 := rfl
  have h8 : byteAt (encDate y m d) 8 = 48 + d / 10 := rfl
  have h9 : byteAt (encDate y m d) 9 = 48 + d % 10 := rfl
  unfold timestamp.parse_date
  rw [hlen, h0, h1, h2, h3, h4, h5, h6, h7, h8, h9, conv4_enc y hy, conv2_enc m hm,
    conv2_enc d hd]
  norm_num
  split_ifs <;> simp_all

/-! ## C7 -/

set_option maxHeartbeats 1600000 in
/-- C7: for every year `y` (in its canonical four-digit encoding),
`parse_date` accepts February 29 iff `y` is divisible by 4 and (not
divisible by 100 or divisible by 400); February 30 is always rejected with
`OutOfRangeDay`; months outside `1..=12` are rejected with
`OutOfRangeMonth`; and in general a day is accepted iff it lies within the
31/30/28-or-29 bound of its month. -/
theorem C7_parse_date_calendar (y : Nat) (hy : y < 10000) :
    (timestamp.parse_date (encDate y 2 29) = .ok (y, 2, 29) ↔
      (y % 4 = 0 ∧ (y % 100 ≠ 0 ∨ y % 400 = 0))) ∧
    timestamp.parse_date (encDate y 2 30) = .error .OutOfRangeDay ∧
    (∀ m d, m ≤ 99 → d ≤ 99 → (m = 0 ∨ 13 ≤ m) →
      timestamp.parse_date (encDate y m d) = .error .OutOfRangeMonth) ∧
    (∀ m d, 1 ≤ m → m ≤ 12 → d ≤ 99 →
      (timestamp.parse_date (encDate y m d) = .ok (y, m, d) ↔
        (1 ≤ d ∧ d ≤ monthDays y m))) := by
  refine ⟨?_, ?_, ?_, ?_⟩
  · rw [parse_date_enc y 2 29 hy (by norm_num) (by norm_num)]
    unfold timestamp.febDays
    by_cases hleap : y % 4 = 0 ∧ (y % 100 ≠ 0 ∨ y % 400 = 0) <;>
      simp [hleap]
  · rw [parse_date_enc y 2 30 hy (by norm_num) (by norm_num)]
    unfold timestamp.febDays
    by_cases hleap : y % 4 = 0 ∧ (y % 100 ≠ 0 ∨ y % 400 = 0) <;>
      simp [hleap]
  · intro m d hm hd hout
    rw [parse_date_enc y m d hy hm hd]
    have h1 : ¬(m = 1 ∨ m = 3 ∨ m = 5 ∨ m = 7 ∨ m = 8 ∨ m = 10 ∨ m = 12) := by omega
    have h2 : ¬(m = 4 ∨ m = 6 ∨ m = 9 ∨ m = 11) := by omega
    have h3 : ¬(m = 2) := by omega
    simp [h1, h2, h3]
  · intro m d h1m hm12 hd
    rw [parse_date_enc y m d hy (by omega) hd]
    unfold monthDays timestamp.febDays
    interval_cases m <;> split_ifs <;> (try simp) <;> omega

/-- Witness for C7 at year 2024 (a leap year). -/
theorem C7_parse_date_calendar_witness :
    timestamp.parse_date (encDate 2024 2 29) = .ok (2024, 2, 29) :=
  (C7_parse_date_calendar 2024 (by norm_num)).1.mpr (by norm_num)

/-! ## C1 -/

/-- Claim C1 (code bug): `parse_message` does NOT complete totally on every
input — on the truncated input `"<1>1"` the version-separator check indexes
`buf[4]` on a 4-byte buffer, which panics (aborts) instead of returning a
typed error. -/
theorem C1_truncated_input_crashes :
    rfc5424.parse_message (bytes ("<1>1")) = .crash := by
  decide

/-! ## C2 -/

/-- Claim C2 (code bug): in the active parser the double-quoted parameter
value ends at the first `"` even when that quote is preceded by a
backslash; on the fragment `[meta key="val\"ue"]` the value scan stops
after `val\`, the following `u` is not a valid parameter separator, and
the whole element fails with `InvalidStructuredData` instead of yielding
the claimed `("key", val\"ue)` parameter. -/
theorem C2_escape_not_honoured :
    rfc5424.parse_param_value (bytes ("[meta key=\"val\\\"ue\"]")) 10 =
      .ok (bytes ("val\\"), 16) ∧
    rfc5424.parse_structured_element (bytes ("[meta key=\"val\\\"ue\"]")) 0 =
      .err .InvalidStructuredData := by
  constructor
  · decide
  · decide

/-! ## C3 -/

/-- Claim C3 (code bug): `StructuredElement::eq` sorts both parameter
lists and compares them with `zip`, which stops at the shorter list; two
elements with the same id whose parameter lists have different lengths
(one a sorted prefix of the other) therefore compare EQUAL, contradicting
the multiset-equality specification. -/
theorem C3_sd_eq_ignores_extra_params :
    sd_eq ⟨bytes ("a"), [(bytes ("k"), bytes ("v"))]⟩
        ⟨bytes ("a"), [(bytes ("k"), bytes ("v")), (bytes ("x"), bytes ("y"))]⟩ = true ∧
    ([(bytes ("k"), bytes ("v"))] : List (List Nat × List Nat)).length ≠
      [(bytes ("k"), bytes ("v")), (bytes ("x"), bytes ("y"))].length := by
  constructor
  · decide
  · decide

/-! ## C4 -/

/-- Counterexample to claim C4: the standalone entry point accepts the
date/time separator `t` while the embedded entry point rejects the same
input, so the two parsers do not apply identical validation (the
difference is not limited to the trailing-character check). -/
theorem C4_cex :
    timestamp.parse_timestamp_rfc3339 (bytes ("1985-04-12t23:20:50Z")) =
      .ok ⟨1985, 4, 12, 23, 20, 50, 0, 0⟩ ∧
    rfc5424.parse_timestamp (bytes ("1985-04-12t23:20:50Z")) 0 =
      .err .InvalidTimestamp := by
  constructor
  · decide
  · decide

/-- Claim C4, amended: the standalone timestamp parser accepts all four
date/time separators `T`, `t`, space and `_`, but the embedded parser of
`parse_message` accepts only the literal `T`, rejecting the other three
with `InvalidTimestamp` — the two are separate implementations whose
validation differs beyond the trailing-character check.  On a common
input (`T` separator, fractional seconds, `Z`) both succeed with equal
decoded values. -/
theorem C4_separator_validation :
    (timestamp.parse_timestamp_rfc3339 (bytes ("1985-04-12T23:20:50Z")) =
        .ok ⟨1985, 4, 12, 23, 20, 50, 0, 0⟩ ∧
      timestamp.parse_timestamp_rfc3339 (bytes ("1985-04-12t23:20:50Z")) =
        .ok ⟨1985, 4, 12, 23, 20, 50, 0, 0⟩ ∧
      timestamp.parse_timestamp_rfc3339 (bytes ("1985-04-12 23:20:50Z")) =
        .ok ⟨1985, 4, 12, 23, 20, 50, 0, 0⟩ ∧
      timestamp.parse_timestamp_rfc3339 (bytes ("1985-04-12_23:20:50Z")) =
        .ok ⟨1985, 4, 12, 23, 20, 50, 0, 0⟩) ∧
    (rfc5424.parse_timestamp (bytes ("1985-04-12t23:20:50Z")) 0 =
        .err .InvalidTimestamp ∧
      rfc5424.parse_timestamp (bytes ("1985-04-12 23:20:50Z")) 0 =
        .err .InvalidTimestamp ∧
      rfc5424.parse_timestamp (bytes ("1985-04-12_23:20:50Z")) 0 =
        .err .InvalidTimestamp) ∧
    (timestamp.parse_timestamp_rfc3339 (bytes ("1985-04-12T23:20:50.52Z")) =
        .ok ⟨1985, 4, 12, 23, 20, 50, 520000000, 0⟩ ∧
      rfc5424.parse_timestamp (bytes ("1985-04-12T23:20:50.52Z")) 0 =
        .ok (⟨1985, 4, 12, 23, 20, 50, 520000000, 0⟩, 23)) := by
  refine ⟨⟨?_, ?_, ?_, ?_⟩, ⟨?_, ?_, ?_⟩, ?_, ?_⟩ <;> decide

/-! ## C5 -/

/-- The empty message produced by `<>1 - - - - - -` (priority digits
absent, `prival` stays 0). -/
def msgEmpty0 : Message :=
  ⟨.EMERG, .KERN, .RFC5424 1, none, none, none, none, none, [], []⟩

/-- The empty message produced by `<0001>1 - - - - - -` (four priority
digits). -/
def msgEmpty1 : Message :=
  ⟨.ALERT, .KERN, .RFC5424 1, none, none, none, none, none, [], []⟩

/-- Counterexample to claim C5: `parse_message` does NOT fail on zero
priority digits, nor on more than three digits — `<>1 - - - - - -` and
`<0001>1 - - - - - -` both parse successfully. -/
theorem C5_cex :
    rfc5424.parse_message (bytes ("<>1 - - - - - -")) = .ok msgEmpty0 ∧
    rfc5424.parse_message (bytes ("<0001>1 - - - - - -")) = .ok msgEmpty1 := by
  constructor
  · decide
  · decide

/-- Claim C5, amended: `parse_message` fails with `ExpectedChar '<'` when
the input is shorter than four bytes or does not start with `<`, and the
digit loop fails with `ExpectedChar` on any byte that is neither a digit
nor `>`; but the digit count is NOT limited to 1-3: zero digits yield
priority 0 and more than three digits are accepted, and `<4096>` is
rejected only later, by the facility decomposition (`BadFacility`). -/
theorem C5_priority_grammar :
    (∀ buf : List Nat, buf.length < 4 ∨ byteAt buf 0 ≠ 60 →
      rfc5424.parse_message buf = .err (.ExpectedChar 60)) ∧
    (∀ (buf : List Nat) (pos : Nat) (prival : Int) (fuel : Nat),
      ¬ isDigit (byteAt buf pos) → byteAt buf pos ≠ 62 →
      rfc5424.pri_loop buf pos prival (fuel + 1) =
        .error (.ExpectedChar (byteAt buf pos))) ∧
    rfc5424.parse_message (bytes ("<4096>1 - - - - - -")) = .err .BadFacility ∧
    rfc5424.parse_message (bytes ("<>1 - - - - - -")) = .ok msgEmpty0 ∧
    rfc5424.parse_message (bytes ("<0001>1 - - - - - -")) = .ok msgEmpty1 := by
  refine ⟨?_, ?_, by decide, by decide, by decide⟩
  · intro buf h
    simp [rfc5424.parse_message, h]
  · intro buf pos prival fuel h1 h2
    simp [rfc5424.pri_loop, h1, h2]

/-- Witness for C5 at concrete inputs: a missing `<` and a non-digit
inside the priority field. -/
theorem C5_priority_grammar_witness :
    rfc5424.parse_message (bytes ("x123")) = .err (.ExpectedChar 60) ∧
    rfc5424.pri_loop (bytes ("<1a>")) 2 1 2 = .error (.ExpectedChar 97) := by
  constructor
  · exact C5_priority_grammar.1 (bytes ("x123")) (by decide)
  · exact C5_priority_grammar.2.1 (bytes ("<1a>")) 2 1 1 (by decide) (by decide)

/-! ## Priority decomposition helpers -/

theorem severity_table (x : Int) (h0 : 0 ≤ x) (h7 : x ≤ 7) :
    ∃ s : Severity, Severity.try_from x = .ok s ∧ (s.code : Int) = x := by
  interval_cases x
  · exact ⟨.EMERG, rfl, rfl⟩
  · exact ⟨.ALERT, rfl, rfl⟩
  · exact ⟨.CRIT, rfl, rfl⟩
  · exact ⟨.ERR, rfl, rfl⟩
  · exact ⟨.WARNING, rfl, rfl⟩
  · exact ⟨.NOTICE, rfl, rfl⟩
  · exact ⟨.INFO, rfl, rfl⟩
  · exact ⟨.DEBUG, rfl, rfl⟩

theorem facility_table (x : Int) (h0 : 0 ≤ x) (h23 : x ≤ 23) :
    ∃ f : Facility, Facility.try_from x = .ok f ∧ (f.code : Int) = x := by
  interval_cases x
  · exact ⟨.KERN, rfl, rfl⟩
  · exact ⟨.USER, rfl, rfl⟩
  · exact ⟨.MAIL, rfl, rfl⟩
  · exact ⟨.DAEMON, rfl, rfl⟩
  · exact ⟨.AUTH, rfl, rfl⟩
  · exact ⟨.SYSLOG, rfl, rfl⟩
  · exact ⟨.LPR, rfl, rfl⟩
  · exact ⟨.NEWS, rfl, rfl⟩
  · exact ⟨.UUCP, rfl, rfl⟩
  · exact ⟨.CRON, rfl, rfl⟩
  · exact ⟨.AUTHPRIV, rfl, rfl⟩
  · exact ⟨.FTP, rfl, rfl⟩
  · exact ⟨.NTP, rfl, rfl⟩
  · exact ⟨.AUDIT, rfl, rfl⟩
  · exact ⟨.ALERT, rfl, rfl⟩
  · exact ⟨.CLOCKD, rfl, rfl⟩
  · exact ⟨.LOCAL0, rfl, rfl⟩
  · exact ⟨.LOCAL1, rfl, rfl⟩
  · exact ⟨.LOCAL2, rfl, rfl⟩
  · exact ⟨.LOCAL3, rfl, rfl⟩
  · exact ⟨.LOCAL4, rfl, rfl⟩
  · exact ⟨.LOCAL5, rfl, rfl⟩
  · exact ⟨.LOCAL6, rfl, rfl⟩
  · exact ⟨.LOCAL7, rfl, rfl⟩

theorem facility_out_of_range (x : Int) (h : x < 0 ∨ 24 ≤ x) :
    Facility.try_from x = .error .BadFacility := by
  unfold Facility.try_from
  repeat rw [if_neg (by omega)]

/-- A successful `parse_message` determines severity and facility from the
accumulated priority value (one conversion step each). -/
theorem parse_message_ok_shape (buf : List Nat) (off : Nat) (v : Int) (m : Message)
    (hpl : rfc5424.pri_loop buf 1 0 (buf.length - 1) = .ok (off, v))
    (hok : rfc5424.parse_message buf = .ok m) :
    ∃ s f, Severity.try_from (rfc5424.i32_and7 v) = .ok s ∧
      Facility.try_from (rfc5424.i32_shr3 v) = .ok f ∧
      m.severity = s ∧ m.facility = f := by
  unfold rfc5424.parse_message at hok
  by_cases hg : buf.length < 4 ∨ byteAt buf 0 ≠ 60
  · rw [if_pos hg] at hok
    exact absurd hok (by simp)
  · rw [if_neg hg] at hok
    rw [hpl] at hok
    cases hs : Severity.try_from (rfc5424.i32_and7 v) with
    | error e =>
      simp only [hs] at hok
      exact PRes.noConfusion hok
    | ok s =>
      cases hf : Facility.try_from (rfc5424.i32_shr3 v) with
      | error e =>
        simp only [hs, hf] at hok
        exact PRes.noConfusion hok
      | ok f =>
        simp only [hs, hf] at hok
        cases hpf : rfc5424.parse_fields buf off with
        | ok flds =>
          rw [hpf] at hok
          simp only [PRes.map] at hok
          cases hok
          exact ⟨s, f, rfl, rfl, rfl, rfl⟩
        | err e =>
          rw [hpf] at hok
          simp only [PRes.map] at hok
          exact PRes.noConfusion hok
        | crash =>
          rw [hpf] at hok
          simp only [PRes.map] at hok
          exact PRes.noConfusion hok

/-! ## C6 -/

/-- Claim C6: whenever the priority loop accumulates a value `v` with
`0 ≤ v ≤ 191`, the severity (`v & 7`) and facility (`v >> 3`) conversions
both succeed, their codes equal the bit-split values and lie in the
enumerations (0-7 and 0-23), and any successfully parsed message carries
exactly those two enum values; whenever `v ≥ 192` the facility conversion
is out of table and `parse_message` can never return a message. -/
theorem C6_priority_decomposition :
    ∀ (buf : List Nat) (off : Nat) (v : Int),
      rfc5424.pri_loop buf 1 0 (buf.length - 1) = .ok (off, v) →
      ((0 ≤ v ∧ v ≤ 191) →
        ∃ s f, Severity.try_from (rfc5424.i32_and7 v) = .ok s ∧
          Facility.try_from (rfc5424.i32_shr3 v) = .ok f ∧
          (s.code : Int) = rfc5424.i32_and7 v ∧
          (f.code : Int) = rfc5424.i32_shr3 v ∧
          s.code ≤ 7 ∧ f.code ≤ 23 ∧
          (∀ m : Message, rfc5424.parse_message buf = .ok m →
            m.severity = s ∧ m.facility = f)) ∧
      (192 ≤ v → ∀ m : Message, rfc5424.parse_message buf ≠ .ok m) := by
  intro buf off v hpl
  constructor
  · rintro ⟨h0, h191⟩
    have hb7 : 0 ≤ rfc5424.i32_and7 v ∧ rfc5424.i32_and7 v ≤ 7 := by
      unfold rfc5424.i32_and7; omega
    have hb23 : 0 ≤ rfc5424.i32_shr3 v ∧ rfc5424.i32_shr3 v ≤ 23 := by
      unfold rfc5424.i32_shr3; omega
    obtain ⟨s, hs, hsc⟩ := severity_table _ hb7.1 hb7.2
    obtain ⟨f, hf, hfc⟩ := facility_table _ hb23.1 hb23.2
    refine ⟨s, f, hs, hf, hsc, hfc, by omega, by omega, ?_⟩
    intro m hok
    obtain ⟨s', f', hs', hf', hms, hmf⟩ := parse_message_ok_shape buf off v m hpl hok
    rw [hs] at hs'
    rw [hf] at hf'
    cases hs'
    cases hf'
    exact ⟨hms, hmf⟩
  · intro h192 m hok
    obtain ⟨s', f', hs', hf', _, _⟩ := parse_message_ok_shape buf off v m hpl hok
    rw [facility_out_of_range _ (Or.inr (by unfold rfc5424.i32_shr3; omega))] at hf'
    exact absurd hf' (by simp)

/-- Witness for C6: priority 34 decomposes into CRIT/AUTH and is carried
into the parsed message; priority 200 can never yield a message. -/
theorem C6_priority_decomposition_witness :
    (∃ s f, Severity.try_from (rfc5424.i32_and7 34) = .ok s ∧
      Facility.try_from (rfc5424.i32_shr3 34) = .ok f ∧
      (s.code : Int) = rfc5424.i32_and7 34 ∧
      (f.code : Int) = rfc5424.i32_shr3 34 ∧
      s.code ≤ 7 ∧ f.code ≤ 23 ∧
      (∀ m : Message, rfc5424.parse_message (bytes ("<34>1 - - - - - -")) = .ok m →
        m.severity = s ∧ m.facility = f)) ∧
    (∀ m : Message, rfc5424.parse_message (bytes ("<200>1 - - - - - -")) ≠ .ok m) := by
  constructor
  · exact (C6_priority_decomposition (bytes ("<34>1 - - - - - -")) 4 34
      (by rfl)).1 (by norm_num)
  · exact (C6_priority_decomposition (bytes ("<200>1 - - - - - -")) 5 200
      (by rfl)).2 (by norm_num)

/-! ## C10 -/

/-- Claim C10: for every (wrapped `i32`) priority value `v`, `v & 0x7` lies
in `0..=7`, so the severity conversion always succeeds and the
`BadSeverity` branch is unreachable; an out-of-range priority can only be
reported through the facility conversion, which fails with `BadFacility`
exactly when `v >> 3` leaves `0..=23`. -/
theorem C10_bad_severity_unreachable (v : Int) :
    (0 ≤ rfc5424.i32_and7 v ∧ rfc5424.i32_and7 v ≤ 7) ∧
    (∃ s, Severity.try_from (rfc5424.i32_and7 v) = .ok s) ∧
    Severity.try_from (rfc5424.i32_and7 v) ≠ .error .BadSeverity ∧
    (¬ (0 ≤ v ∧ v ≤ 191) → Facility.try_from (rfc5424.i32_shr3 v) = .error .BadFacility) := by
  have hb : 0 ≤ rfc5424.i32_and7 v ∧ rfc5424.i32_and7 v ≤ 7 := by
    unfold rfc5424.i32_and7; omega
  obtain ⟨s, hs, _⟩ := severity_table _ hb.1 hb.2
  refine ⟨hb, ⟨s, hs⟩, by rw [hs]; simp, ?_⟩
  intro h
  exact facility_out_of_range _ (by unfold rfc5424.i32_shr3; omega)

/-- Witness for C10 at the out-of-range priority 500. -/
theorem C10_bad_severity_unreachable_witness :
    (∃ s, Severity.try_from (rfc5424.i32_and7 500) = .ok s) ∧
    Facility.try_from (rfc5424.i32_shr3 500) = .error .BadFacility := by
  exact ⟨(C10_bad_severity_unreachable 500).2.1,
    (C10_bad_severity_unreachable 500).2.2.2 (by norm_num)⟩

/-! ## C8 and C9 -/

theorem ptwt_enc_eval (h mi s : Nat) (hh : h ≤ 23) (hmi : mi ≤ 59) (hs : s ≤ 59)
    (rest : List Nat) :
    timestamp.parse_time_without_timezone (encTime h mi s ++ rest) 0 =
      (if rest.head? = some 46 ∨ rest.head? = some 44 then
        (match timestamp.fracLoop (encTime h mi s ++ rest) 9 0 0 10 with
         | .error e => .err e
         | .ok (nano, i) =>
           if i = 0 then .err .SecondFractionMissing
           else .ok (h, mi, s, (if i < 9 then nano * 10 ^ (9 - i) else nano), 9 + i))
       else .ok (h, mi, s, 0, 8)) := by
  have hlen : (encTime h mi s ++ rest).length = 8 + rest.length := by
    simp [encTime]
    omega
  have b0 : byteAt (encTime h mi s ++ rest) 0 = 48 + h / 10 := rfl
  have b1 : byteAt (encTime h mi s ++ rest) 1 = 48 + h % 10 := rfl
  have b2 : byteAt (encTime h mi s ++ rest) 2 = 58 := rfl
  have b3 : byteAt (encTime h mi s ++ rest) 3 = 48 + mi / 10 := rfl
  have b4 : byteAt (encTime h mi s ++ rest) 4 = 48 + mi % 10 := rfl
  have b6 : byteAt (encTime h mi s ++ rest) 6 = 48 + s / 10 := rfl
  have b7 : byteAt (encTime h mi s ++ rest) 7 = 48 + s % 10 := rfl
  have g5 : (encTime h mi s ++ rest).get? 5 = some 58 := rfl
  have g8 : (encTime h mi s ++ rest).get? 8 = rest.head? := by
    cases rest <;> rfl
  unfold timestamp.parse_time_without_timezone
  simp only [Nat.zero_add]
  rw [hlen, b0, b1, b2, b3, b4, g5]
  rw [conv2_enc h (by omega), conv2_enc mi (by omega)]
  rw [if_neg (show ¬ (8 + rest.length - 0 < 5) by omega)]
  rw [if_neg (show ¬ h > 23 by omega)]
  rw [if_neg (show ¬ (58 : Nat) ≠ 58 by simp)]
  rw [if_neg (show ¬ mi > 59 by omega)]
  rw [b6, b7, conv2_enc s (by omega), g8]
  rw [if_neg (show ¬ (8 > 8 + rest.length) by omega)]
  rw [if_neg (show ¬ s > 59 by omega)]

theorem fracLoop_digits (ds : List Nat) :
    ∀ (buf tail : List Nat) (start i nano : Nat),
      buf.drop (start + i) = ds ++ tail →
      (∀ b ∈ ds, isDigit b) →
      (∀ b, tail.head? = some b → ¬ (isDigit b = true)) →
      i + ds.length ≤ 9 →
      timestamp.fracLoop buf start i nano (10 - i) =
        .ok (ds.foldl (fun a c => a * 10 + (c - 48)) nano, i + ds.length) := by
  induction ds with
  | nil =>
    intro buf tail start i nano hdrop hds htail hle
    have hget : buf.get? (start + i) = tail.head? := by
      rw [List.get?_eq_getElem?, ← List.head?_drop, hdrop, List.nil_append]
    rw [show 10 - i = (9 - i) + 1 by omega]
    unfold timestamp.fracLoop
    rw [hget]
    cases tail with
    | nil => simp
    | cons t ts =>
      have hnd : ¬ (isDigit t = true) := htail t rfl
      simp [hnd]
  | cons d ds ih =>
    intro buf tail start i nano hdrop hds htail hle
    have hget : buf.get? (start + i) = some d := by
      rw [List.get?_eq_getElem?, ← List.head?_drop, hdrop]
      rfl
    have hd : isDigit d = true := hds d (by simp)
    have hdrop2 : buf.drop (start + (i + 1)) = ds ++ tail := by
      have ht : (buf.drop (start + i)).tail = buf.drop (start + i + 1) := List.tail_drop buf (start + i)
      rw [hdrop] at ht
      rw [show start + (i + 1) = start + i + 1 by omega, ← ht]
      rfl
    rw [show 10 - i = (9 - i) + 1 by omega]
    unfold timestamp.fracLoop
    rw [hget]
    simp only [hd, if_true]
    rw [if_pos (show i < 9 by simp at hle; omega)]
    rw [if_neg (show ¬ (i + 1 > 9) by simp at hle; omega)]
    rw [show (9 - i) = 10 - (i + 1) by omega]
    rw [ih buf tail start (i + 1) (nano * 10 + (d - 48)) hdrop2 (fun b hb => hds b (by simp [hb]))
      htail (by simp at hle; omega)]
    simp
    omega

theorem fracLoop_overflow (ds : List Nat) :
    ∀ (buf tail : List Nat) (start i nano : Nat),
      buf.drop (start + i) = ds ++ tail →
      (∀ b ∈ ds, isDigit b) →
      10 ≤ i + ds.length → i ≤ 9 →
      timestamp.fracLoop buf start i nano (10 - i) = .error .SecondFractionTooLong := by
  induction ds with
  | nil =>
    intro buf tail start i nano hdrop hds hge hle
    simp at hge
    omega
  | cons d ds ih =>
    intro buf tail start i nano hdrop hds hge hle
    have hget : buf.get? (start + i) = some d := by
      rw [List.get?_eq_getElem?, ← List.head?_drop, hdrop]
      rfl
    have hd : isDigit d = true := hds d (by simp)
    have hdrop2 : buf.drop (start + (i + 1)) = ds ++ tail := by
      have ht : (buf.drop (start + i)).tail = buf.drop (start + i + 1) := List.tail_drop buf (start + i)
      rw [hdrop] at ht
      rw [show start + (i + 1) = start + i + 1 by omega, ← ht]
      rfl
    rw [show 10 - i = (9 - i) + 1 by omega]
    unfold timestamp.fracLoop
    rw [hget]
    simp only [hd, if_true]
    by_cases h9 : i + 1 > 9
    · rw [if_pos h9]
    · rw [if_neg h9]
      rw [show (9 - i) = 10 - (i + 1) by omega]
      exact ih buf tail start (i + 1) _ hdrop2 (fun b hb => hds b (by simp [hb]))
        (by simp at hge; omega) (by omega)

/-- Claim C8: in the standalone time parser, when either fraction
separator (`.`, byte 46, or `,`, byte 44) follows the seconds, `k`
fractional digits of value `n` (`1 <= k <= 9`) yield nanosecond
`n * 10^(9-k)`; zero fractional digits after the separator is
`SecondFractionMissing`, and ten or more digits raise
`SecondFractionTooLong` instead of being consumed and truncated. -/
theorem C8_second_fraction (h mi s : Nat) (hh : h ≤ 23) (hmi : mi ≤ 59) (hs : s ≤ 59)
    (sep : Nat) (hsep : sep = 46 ∨ sep = 44)
    (ds tail : List Nat)
    (hds : ∀ b ∈ ds, isDigit b)
    (htail : ∀ b, tail.head? = some b → ¬ (isDigit b = true)) :
    timestamp.parse_time_without_timezone (encTime h mi s ++ sep :: (ds ++ tail)) 0 =
      (if ds.length = 0 then .err .SecondFractionMissing
       else if 10 ≤ ds.length then .err .SecondFractionTooLong
       else .ok (h, mi, s, digitsVal ds * 10 ^ (9 - ds.length), 9 + ds.length)) := by
  rw [ptwt_enc_eval h mi s hh hmi hs (sep :: (ds ++ tail))]
  rw [if_pos (show (sep :: (ds ++ tail)).head? = some 46 ∨ (sep :: (ds ++ tail)).head? = some 44
    by rcases hsep with h1 | h1 <;> subst h1 <;> simp)]
  have hdrop : (encTime h mi s ++ sep :: (ds ++ tail)).drop (9 + 0) = ds ++ tail := rfl
  by_cases hk0 : ds.length = 0
  · have hdse : ds = [] := List.length_eq_zero.mp hk0
    subst hdse
    have hfl := fracLoop_digits [] _ tail 9 0 0 hdrop hds htail (by simp)
    norm_num at hfl
    simp only [List.nil_append]
    rw [hfl]
    simp
  · by_cases hk10 : 10 ≤ ds.length
    · have hfl := fracLoop_overflow ds _ tail 9 0 0 hdrop hds (by omega) (by omega)
      norm_num at hfl
      rw [hfl]
      simp [hk0, hk10]
    · have hfl := fracLoop_digits ds _ tail 9 0 0 hdrop hds htail (by omega)
      norm_num at hfl
      rw [hfl]
      simp only [hk0, hk10, if_false]
      by_cases h9 : ds.length < 9
      · simp [hk0, h9, digitsVal]
      · have h99 : ds.length = 9 := by omega
        simp [hk0, h9, h99, digitsVal]


/-- Witness for C8: fraction `.003` of `22:14:15` is 3000000 ns and the
comma variant `,52` is 520000000 ns; `.` with no digit fails; ten digits
after `,` fail. -/
theorem C8_second_fraction_witness :
    timestamp.parse_time_without_timezone (encTime 22 14 15 ++ 46 :: ([48, 48, 51] ++ [90])) 0 =
      .ok (22, 14, 15, 3000000, 12) ∧
    timestamp.parse_time_without_timezone (encTime 22 14 15 ++ 44 :: ([53, 50] ++ [90])) 0 =
      .ok (22, 14, 15, 520000000, 11) ∧
    timestamp.parse_time_without_timezone
      (encTime 22 14 15 ++ 46 :: (([] : List Nat) ++ [90])) 0 = .err .SecondFractionMissing ∧
    timestamp.parse_time_without_timezone
      (encTime 22 14 15 ++ 44 :: ([49, 50, 51, 52, 53, 54, 55, 56, 57, 48] ++ [90])) 0 =
      .err .SecondFractionTooLong := by
  refine ⟨?_, ?_, ?_, ?_⟩
  · have := C8_second_fraction 22 14 15 (by norm_num) (by norm_num) (by norm_num)
      46 (Or.inl rfl) [48, 48, 51] [90]
      (by decide) (by intro b hb; injection hb with hb2; subst hb2; decide)
    norm_num [digitsVal] at this
    exact this
  · have := C8_second_fraction 22 14 15 (by norm_num) (by norm_num) (by norm_num)
      44 (Or.inr rfl) [53, 50] [90]
      (by decide) (by intro b hb; injection hb with hb2; subst hb2; decide)
    norm_num [digitsVal] at this
    exact this
  · have := C8_second_fraction 22 14 15 (by norm_num) (by norm_num) (by norm_num)
      46 (Or.inl rfl) [] [90]
      (by decide) (by intro b hb; injection hb with hb2; subst hb2; decide)
    norm_num at this
    exact this
  · have := C8_second_fraction 22 14 15 (by norm_num) (by norm_num) (by norm_num)
      44 (Or.inr rfl) [49, 50, 51, 52, 53, 54, 55, 56, 57, 48] [90]
      (by decide) (by intro b hb; injection hb with hb2; subst hb2; decide)
    norm_num at this
    exact this
